import Mathlib

/-!
Verification of the Transfer-database layer of the openva_pipeline repository
(`openva_pipeline/transferDB.py`).

The Python methods `connectDB`, `configPipeline`, `configODK`, `configOpenVA`
(with its family validators `__configInterVA__`, `__configInSilicoVA__`,
`__configSmartVA__`), `configDHIS`, and the record-store stubs `storeVA` and
`storeBlob` are embedded as pure Lean functions.  A database query result (`cursor.fetchall()`) is modelled as a
list of row records whose cells are `Option String` (`none` is SQL NULL);
filesystem facts (`os.path.isfile`, `os.path.isdir`) are modelled by explicit
environment parameters.  Python exceptions become an explicit error type:
each loader returns `Except PyError settings`.

Modelling notes, applied consistently below:
* `fetchall()[0]` on an empty result list raises Python `IndexError`; this is
  `PyError.indexError` (it is NOT one of the pipeline's own error classes).
* string operations (slicing, `len`, `os.path.join`) applied to a NULL cell
  raise Python `TypeError`, modelled as `PyError.typeError`.
* `float(x)` is modelled by `pyFloat`, covering the decimal literal forms
  (optional sign, digits with one optional dot, optional exponent).  The
  special inputs inf/nan, underscore separators and surrounding whitespace
  are not modelled and count as non-parsing; for the `[0, 1]`-interval
  checks this agrees with CPython (inf and nan fail those comparisons), and
  the model deviates from CPython only on such special inputs to the
  strictly-positive checks.
* Python error-message strings written with a backslash line continuation in
  the source contain a long run of indentation spaces; such messages are kept
  only up to the continuation (the field-naming prefix is verbatim).
  Single-line messages are reproduced verbatim.
-/

/-- Errors that can escape the transferDB methods: the pipeline's own
exception classes (end of transferDB.py) plus the built-in Python exceptions
that the code lets escape. -/
inductive PyError where
  | databaseConnectionError (msg : String)
  | pipelineConfigurationError (msg : String)
  | odkConfigurationError (msg : String)
  | openVAConfigurationError (msg : String)
  | dhisConfigurationError (msg : String)
  | indexError
  | typeError
  | valueError (msg : String)
deriving DecidableEq

/-- Numeric value of a list of decimal digit characters. -/
def digitsToNat (l : List Char) : Nat :=
  l.foldl (fun a c => a * 10 + (c.toNat - 48)) 0

/-- An exact decimal number: the value denoted by a Python float literal,
namely `(-1)^neg * num / 10 ^ scale`.  The model treats the literal's value
exactly (no IEEE rounding); the comparisons the validators perform are stated
against this exact value via `DecNum.toRat`. -/
structure DecNum where
  neg : Bool
  num : Nat
  scale : Nat
deriving DecidableEq

/-- Rational value denoted by a `DecNum`. -/
def DecNum.toRat (x : DecNum) : ℚ :=
  (if x.neg then -(x.num : ℚ) else (x.num : ℚ)) / (10 : ℚ) ^ x.scale

/-- Model of Python `float(s)` for decimal literals: optional sign, digits
containing at most one dot (at least one digit overall), optional exponent
part.  Returns the denoted decimal, `none` where `float` raises. -/
def pyFloatCore (sgn : Bool) (ip fp rest : List Char) : Option DecNum :=
  if ip.length = 0 ∧ fp.length = 0 then none
  else
    let mnum := digitsToNat (ip ++ fp)
    match rest with
    | [] => some ⟨sgn, mnum, fp.length⟩
    | c :: r =>
      if c = 'e' ∨ c = 'E' then
        let er : Bool × List Char :=
          match r with
          | '-' :: rr => (true, rr)
          | '+' :: rr => (false, rr)
          | _ => (false, r)
        let ed := er.2.span Char.isDigit
        if ed.1.length = 0 ∨ ed.2 ≠ [] then none
        else
          let e := digitsToNat ed.1
          if er.1 then some ⟨sgn, mnum, fp.length + e⟩
          else some ⟨sgn, mnum * 10 ^ e, fp.length⟩
      else none

/-- Model of Python `float` applied to a string (see `pyFloatCore`). -/
def pyFloat (s : String) : Option DecNum :=
  let l := s.data
  let sl : Bool × List Char :=
    match l with
    | '-' :: r => (true, r)
    | '+' :: r => (false, r)
    | _ => (false, l)
  let ipr := sl.2.span Char.isDigit
  match ipr.2 with
  | '.' :: r =>
    let fpr := r.span Char.isDigit
    pyFloatCore sl.1 ipr.1 fpr.1 fpr.2
  | _ => pyFloatCore sl.1 ipr.1 [] ipr.2

/-- Python `float` applied to a database cell: `float(None)` raises, and the
bare `except:` clauses of transferDB treat that exactly like a parse failure. -/
def pyFloatOpt : Option String → Option DecNum
  | none => none
  | some s => pyFloat s

/-- The comparison `0 <= f`, computed on the exact decimal. -/
def DecNum.nonneg (x : DecNum) : Bool := !x.neg || x.num == 0

/-- The comparison `f <= 1`, computed on the exact decimal. -/
def DecNum.leOne (x : DecNum) : Bool := x.neg || x.num ≤ 10 ^ x.scale

/-- The comparison `0 < f`, computed on the exact decimal. -/
def DecNum.pos (x : DecNum) : Bool := !x.neg && 0 < x.num

/-- The comparison `f < 1`, computed on the exact decimal. -/
def DecNum.ltOne (x : DecNum) : Bool := x.neg || x.num < 10 ^ x.scale

/-- A Gregorian calendar date, as carried by a Python `datetime`. -/
structure PyDate where
  year : Nat
  month : Nat
  day : Nat
deriving DecidableEq

/-- The fields of a Python `datetime` produced by `strptime`. -/
structure PyDateTime where
  year : Nat
  month : Nat
  day : Nat
  hour : Nat
  minute : Nat
  second : Nat
deriving DecidableEq

/-- Calendar date of a datetime. -/
def dateOf (dt : PyDateTime) : PyDate := ⟨dt.year, dt.month, dt.day⟩

/-- Gregorian leap-year rule (as used by Python's `datetime`). -/
def isLeap (y : Nat) : Bool :=
  decide ((y % 4 = 0 ∧ ¬ y % 100 = 0) ∨ y % 400 = 0)

/-- Length of a month, Gregorian calendar. -/
def daysInMonth (y m : Nat) : Nat :=
  match m with
  | 1 => 31
  | 2 => if isLeap y then 29 else 28
  | 3 => 31
  | 4 => 30
  | 5 => 31
  | 6 => 30
  | 7 => 31
  | 8 => 31
  | 9 => 30
  | 10 => 31
  | 11 => 30
  | 12 => 31
  | _ => 0

/-- Days of year `y` that precede the first day of month `m`. -/
def daysBeforeMonth (y m : Nat) : Nat :=
  let f : Nat := if isLeap y then 1 else 0
  match m with
  | 1 => 0
  | 2 => 31
  | 3 => 59 + f
  | 4 => 90 + f
  | 5 => 120 + f
  | 6 => 151 + f
  | 7 => 181 + f
  | 8 => 212 + f
  | 9 => 243 + f
  | 10 => 273 + f
  | 11 => 304 + f
  | 12 => 334 + f
  | _ => 0

/-- Days that precede the first day of year `y` (counting from year 1). -/
def daysBeforeYear (y : Nat) : Nat :=
  365 * (y - 1) + (y - 1) / 4 + (y - 1) / 400 - (y - 1) / 100

/-- Ordinal (rata die) of a date: the proleptic-Gregorian day number, so that
consecutive calendar days have consecutive ordinals. -/
def dayOrdinal (d : PyDate) : Nat :=
  daysBeforeYear d.year + daysBeforeMonth d.year d.month + d.day

/-- Validity of a calendar date (what `datetime` construction enforces). -/
def ValidDate (d : PyDate) : Prop :=
  1 ≤ d.year ∧ 1 ≤ d.month ∧ d.month ≤ 12 ∧ 1 ≤ d.day ∧ d.day ≤ daysInMonth d.year d.month

instance (d : PyDate) : Decidable (ValidDate d) := by
  unfold ValidDate; infer_instance

/-- The calendar day before `d`: model of `datetime - timedelta(days=1)`. -/
def prevDate (d : PyDate) : PyDate :=
  if 1 < d.day then ⟨d.year, d.month, d.day - 1⟩
  else if 1 < d.month then ⟨d.year, d.month - 1, daysInMonth d.year (d.month - 1)⟩
  else ⟨d.year - 1, 12, 31⟩

/-- Parse a run of one to `maxLen` digits, returning its value and the rest. -/
def takeRun (maxLen : Nat) (l : List Char) : Option (Nat × List Char) :=
  let p := l.span Char.isDigit
  if 1 ≤ p.1.length ∧ p.1.length ≤ maxLen then some (digitsToNat p.1, p.2) else none

/-- Consume one expected literal character. -/
def expectChar (c : Char) : List Char → Option (List Char)
  | [] => none
  | x :: r => if x = c then some r else none

/-- Shape parsing of `%Y-%m-%d_%H:%M:%S`: a four-digit year and one-or-two
digit fields separated by the literal separators, consuming the whole string
(strptime rejects unconverted trailing data).  Range checks live in `mkDT`. -/
def parseFields (l : List Char) : Option (Nat × Nat × Nat × Nat × Nat × Nat) :=
  let py := l.span Char.isDigit
  if py.1.length = 4 then
    (expectChar '-' py.2).bind fun r1 =>
    (takeRun 2 r1).bind fun mr =>
    (expectChar '-' mr.2).bind fun r3 =>
    (takeRun 2 r3).bind fun dr =>
    (expectChar '_' dr.2).bind fun r5 =>
    (takeRun 2 r5).bind fun hr =>
    (expectChar ':' hr.2).bind fun r7 =>
    (takeRun 2 r7).bind fun nr =>
    (expectChar ':' nr.2).bind fun r9 =>
    (takeRun 2 r9).bind fun sr =>
    if sr.2 = [] then some (digitsToNat py.1, mr.1, dr.1, hr.1, nr.1, sr.1) else none
  else none

/-- Range validation done by `datetime` construction inside `strptime`.
Years below 1000 are excluded from the model: for them the later
`strftime("%Y")` round trip in configODK is platform dependent (glibc does
not zero-pad `%Y`), so the model covers the four-digit years `1000..9999`. -/
def mkDT (y m d hh mm ss : Nat) : Option PyDateTime :=
  if 1000 ≤ y ∧ 1 ≤ m ∧ m ≤ 12 ∧ 1 ≤ d ∧ d ≤ daysInMonth y m ∧ hh ≤ 23 ∧ mm ≤ 59 ∧ ss ≤ 59
  then some ⟨y, m, d, hh, mm, ss⟩
  else none

/-- Model of `datetime.datetime.strptime(s, "%Y-%m-%d_%H:%M:%S")`:
`none` where strptime raises `ValueError`. -/
def parseDateTime (s : String) : Option PyDateTime :=
  match parseFields s.data with
  | none => none
  | some (y, m, d, hh, mm, ss) => mkDT y m d hh mm ss

/-- Two-digit zero padding, as in strftime `%m` and `%d`. -/
def pad2 (n : Nat) : String :=
  if n < 10 then "0" ++ toString n else toString n

/-- Model of `strftime("%Y/%m/%d")` (years of the model are ≥ 999, where
`%Y` prints the plain decimal digits). -/
def formatDateSlash (d : PyDate) : String :=
  toString d.year ++ "/" ++ pad2 d.month ++ "/" ++ pad2 d.day

/-! ### Common validation helpers of the loaders -/

/-- Python membership test `cell in ("a", "b", ...)` against string literals. -/
def memb (v : Option String) (opts : List String) : Bool :=
  opts.any (fun o => v == some o)

/-- Python test `cell in ("", None)` (used for the required R-object names). -/
def isEmptyOrNull (v : Option String) : Bool :=
  v == some "" || v == none

/-- Boolean-as-string test of the InterVA and InSilicoVA validators:
`cell in ("TRUE", "FALSE")`. -/
def isTF (v : Option String) : Bool :=
  v == some "TRUE" || v == some "FALSE"

/-- Boolean-as-string test of the SmartVA validator:
`cell in ("True", "False")`. -/
def isTrueFalse (v : Option String) : Bool :=
  v == some "True" || v == some "False"

/-- The `try: f = float(cell) ... valid = (0 <= f <= 1)` pattern:
true when the cell parses and the value lies in the inclusive interval. -/
def prob01 (v : Option String) : Bool :=
  match pyFloatOpt v with
  | some x => x.nonneg && x.leOne
  | none => false

/-- The `valid = (0 < f < 1)` pattern (used for `indiv_CI`). -/
def prob01strict (v : Option String) : Bool :=
  match pyFloatOpt v with
  | some x => x.pos && x.ltOne
  | none => false

/-- The `valid = (0 < f)` pattern (thin, burnin, jump_scale, levels_strength). -/
def posNum (v : Option String) : Bool :=
  match pyFloatOpt v with
  | some x => x.pos
  | none => false

/-- The `try: float(cell) except: raise` pattern with no range check (seed). -/
def parsesNum (v : Option String) : Bool :=
  (pyFloatOpt v).isSome

/-- The CondProbNum block (transferDB.py lines 490-503): the sentinel string
NULL skips validation, otherwise the cell must parse and lie in `[0, 1]`. -/
def condProbNumOk (v : Option String) : Bool :=
  v == some "NULL" || prob01 v

/-- The indiv_CI block (transferDB.py lines 709-722): the sentinel string
NULL skips validation, otherwise the cell must parse and lie in `(0, 1)`
(both comparisons strict in the source: `0 < floatIndivCI < 1`). -/
def indivCIOk (v : Option String) : Bool :=
  v == some "NULL" || prob01strict v

/-- URL prefix test of configODK and configDHIS:
`url[0:7] == "http://" or url[0:8] == "https://"`. -/
def urlOk (url : String) : Bool :=
  url.data.take 7 == "http://".data || url.data.take 8 == "https://".data

/-- The `odkLastRunResult in ("success", "fail")` test. -/
def lrrOk (v : Option String) : Bool :=
  v == some "success" || v == some "fail"

/-- Model of `os.path.join(a, b)` for the two-argument calls of transferDB. -/
def pjoin (a b : String) : String :=
  if b.data.take 1 == ['/'] then b
  else if a.data == [] then b
  else if a.data.getLast? == some '/' then a ++ b
  else a ++ "/" ++ b

/-! ### connectDB (transferDB.py lines 67-98)

The filesystem fact `os.path.isfile(self.dbPath)` and the outcome of the
`PRAGMA key`/probe sequence are the two environment facts the method branches
on; they are passed as booleans, with the sqlcipher error detail as a string.
The model also records whether `sqlcipher.connect` was reached, so that
"fails without attempting to open the store" is an observable statement. -/

instance {ε α : Type} [DecidableEq ε] [DecidableEq α] : DecidableEq (Except ε α) := fun a b =>
  match a, b with
  | .error e1, .error e2 =>
    if h : e1 = e2 then .isTrue (congrArg Except.error h)
    else .isFalse (fun hh => h (by cases hh; rfl))
  | .ok x, .ok y =>
    if h : x = y then .isTrue (congrArg Except.ok h)
    else .isFalse (fun hh => h (by cases hh; rfl))
  | .error _, .ok _ => .isFalse (fun hh => Except.noConfusion hh)
  | .ok _, .error _ => .isFalse (fun hh => Except.noConfusion hh)

/-- Result of `connectDB`: whether the store file was opened, and either a
connection (modelled as `Unit`) or the raised error. -/
structure ConnectOutcome where
  openAttempted : Bool
  result : Except PyError Unit
deriving DecidableEq

/-- Embedding of `TransferDB.connectDB`.  `filePresent` is
`os.path.isfile(self.dbPath)`; `keyOk` is whether the metadata probe under
the supplied key succeeds; `detail` is `str(e)` of the sqlcipher error. -/
def connectDB (filePresent : Bool) (keyOk : Bool) (detail : String) : ConnectOutcome :=
  if !filePresent then ⟨false, .error (.databaseConnectionError "")⟩
  else if !keyOk then ⟨true, .error (.databaseConnectionError ("Database password error," ++ detail))⟩
  else ⟨true, .ok ()⟩

/-! ### configPipeline (transferDB.py lines 106-173) -/

/-- The single row of `Pipeline_Conf` (the four selected columns). -/
structure PipelineRow where
  algorithmMetadataCode : Option String
  codSource : Option String
  algorithm : Option String
  workingDirectory : Option String
deriving DecidableEq

/-- The `ntPipeline` namedtuple returned by configPipeline. -/
structure PipelineSettings where
  algorithmMetadataCode : Option String
  codSource : Option String
  algorithm : Option String
  workingDirectory : Option String
deriving DecidableEq

/-- Embedding of `TransferDB.configPipeline`.  `existingDirs` models the
directories for which `os.path.isdir` is true; `metadataQuery` is the
flattened `dhisCode` column of `Algorithm_Metadata_Options`; `queryPipeline`
is `fetchall()` on `Pipeline_Conf`.  Both queries are assumed to execute
(their `sqlcipher.OperationalError` wrapping is not modelled). -/
def configPipeline (existingDirs : List String) (metadataQuery : List (Option String))
    (queryPipeline : List PipelineRow) : Except PyError PipelineSettings :=
  match queryPipeline with
  | [] => .error .indexError
  | row :: _ =>
  if !(metadataQuery.contains row.algorithmMetadataCode) then
    .error (.pipelineConfigurationError "Problem in database: Pipeline_Conf.algorithmMetadataCode") else
  if !(memb row.codSource ["ICD10", "WHO", "Tariff"]) then
    .error (.pipelineConfigurationError "Problem in database: Pipeline_Conf.codSource") else
  if !(memb row.algorithm ["InterVA", "Insilico", "SmartVA", "InterVA5"]) then
    .error (.pipelineConfigurationError "Problem in database: Pipeline_Conf.algorithm") else
  match row.workingDirectory with
  | none => .error .typeError
  | some wd =>
  if !(existingDirs.contains wd) then
    .error (.pipelineConfigurationError "Problem in database: Pipeline_Conf.workingDirectory") else
  .ok ⟨row.algorithmMetadataCode, row.codSource, row.algorithm, row.workingDirectory⟩

/-! ### configODK (transferDB.py lines 175-250) -/

/-- The single row of `ODK_Conf` (the seven selected columns). -/
structure ODKRow where
  odkID : Option String
  odkURL : Option String
  odkUser : Option String
  odkPassword : Option String
  odkFormID : Option String
  odkLastRun : Option String
  odkLastRunResult : Option String
deriving DecidableEq

/-- The `ntODK` namedtuple returned by configODK: the seven stored cells plus
the two derived date strings. -/
structure ODKSettings where
  odkID : Option String
  odkURL : Option String
  odkUser : Option String
  odkPassword : Option String
  odkFormID : Option String
  odkLastRun : Option String
  odkLastRunResult : Option String
  odkLastRunDate : String
  odkLastRunDatePrev : String
deriving DecidableEq

/-- Embedding of `TransferDB.configODK`.  The source computes
`odkLastRunDatePrev` by re-parsing the freshly formatted `odkLastRunDate`
with `%Y/%m/%d` and subtracting `timedelta(days=1)`; since formatting then
re-parsing is the identity on the model's dates, this composition is
`prevDate` applied to the parsed calendar date.  The detail text of the
escaping `ValueError` is abbreviated (CPython quotes the operands). -/
def configODK (rows : List ODKRow) : Except PyError ODKSettings :=
  match rows with
  | [] => .error .indexError
  | row :: _ =>
  match row.odkURL with
  | none => .error .typeError
  | some url =>
  if !(urlOk url) then
    .error (.odkConfigurationError "Problem in database: ODK_Conf.odkURL") else
  if !(lrrOk row.odkLastRunResult) then
    .error (.odkConfigurationError "Problem in database: ODK_Conf.odkLastRunResult") else
  match row.odkLastRun with
  | none => .error .typeError
  | some lr =>
  match parseDateTime lr with
  | none => .error (.valueError ("time data " ++ lr ++ " does not match format %Y-%m-%d_%H:%M:%S"))
  | some dt =>
  .ok ⟨row.odkID, row.odkURL, row.odkUser, row.odkPassword, row.odkFormID,
       row.odkLastRun, row.odkLastRunResult,
       formatDateSlash (dateOf dt), formatDateSlash (prevDate (dateOf dt))⟩

/-! ### configDHIS (transferDB.py lines 883-947) -/

/-- The single row of `DHIS_Conf` (the four selected columns). -/
structure DHISRow where
  dhisURL : Option String
  dhisUser : Option String
  dhisPassword : Option String
  dhisOrgUnit : Option String
deriving DecidableEq

/-- The `ntDHIS` namedtuple returned by configDHIS. -/
structure DHISSettings where
  dhisURL : Option String
  dhisUser : Option String
  dhisPassword : Option String
  dhisOrgUnit : Option String
deriving DecidableEq

/-- Embedding of `TransferDB.configDHIS`. -/
def configDHIS (rows : List DHISRow) : Except PyError DHISSettings :=
  match rows with
  | [] => .error .indexError
  | row :: _ =>
  match row.dhisURL with
  | none => .error .typeError
  | some url =>
  if !(urlOk url) then
    .error (.dhisConfigurationError "Problem in database: DHIS_Conf.dhisURL") else
  if (row.dhisUser == some "" || row.dhisUser == none) then
    .error (.dhisConfigurationError "Problem in database: DHIS_Conf.dhisUser (is empty)") else
  if (row.dhisPassword == some "" || row.dhisPassword == none) then
    .error (.dhisConfigurationError "Problem in database: DHIS_Conf.dhisPassword (is empty)") else
  if (row.dhisOrgUnit == some "" || row.dhisOrgUnit == none) then
    .error (.dhisConfigurationError "Problem in database: DHIS_Conf.dhisOrgUnit (is empty)") else
  .ok ⟨row.dhisURL, row.dhisUser, row.dhisPassword, row.dhisOrgUnit⟩

/-! ### __configInterVA__ (transferDB.py lines 291-412) -/

/-- The single row of `InterVA_Conf`. -/
structure InterVARow where
  version : Option String
  hiv : Option String
  malaria : Option String
deriving DecidableEq

/-- The single row of `Advanced_InterVA_Conf`. -/
structure AdvInterVARow where
  directory : Option String
  filename : Option String
  output : Option String
  append : Option String
  groupcode : Option String
  replicate : Option String
  replicate_bug1 : Option String
  replicate_bug2 : Option String
  write : Option String
deriving DecidableEq

/-- The `ntInterVA` namedtuple: the twelve validated cells, unchanged. -/
structure InterVASettings where
  version : Option String
  hiv : Option String
  malaria : Option String
  directory : Option String
  filename : Option String
  output : Option String
  append : Option String
  groupcode : Option String
  replicate : Option String
  replicate_bug1 : Option String
  replicate_bug2 : Option String
  write : Option String
deriving DecidableEq

/-- Embedding of `TransferDB.__configInterVA__`.  `existingDirs` models
`os.path.isdir`; `pipelineDir` is the working directory argument. -/
def configInterVA (existingDirs : List String) (pipelineDir : String)
    (rows : List InterVARow) (advRows : List AdvInterVARow) :
    Except PyError InterVASettings :=
  match rows with
  | [] => .error .indexError
  | r :: _ =>
  if !(memb r.version ["4", "5"]) then
    .error (.openVAConfigurationError "Problem in database: InterVA_Conf.version") else
  if !(memb r.hiv ["v", "l", "h"]) then
    .error (.openVAConfigurationError "Problem in database: InterVA_Conf.HIV") else
  if !(memb r.malaria ["v", "l", "h"]) then
    .error (.openVAConfigurationError "Problem in database: InterVA_Conf.Malaria") else
  match advRows with
  | [] => .error .indexError
  | a :: _ =>
  match a.directory with
  | none => .error .typeError
  | some dir =>
  if !(existingDirs.contains (pjoin pipelineDir dir)) then
    .error (.openVAConfigurationError "Problem in database: Advanced_InterVA_Conf.directory.") else
  if (a.filename == none || a.filename == some "") then
    .error (.openVAConfigurationError "Problem in database: Advanced_InterVA_Conf.filename.") else
  if !(memb a.output ["classic", "extended"]) then
    .error (.openVAConfigurationError "Problem in database: Advanced_InterVA_Conf.output.") else
  if !(isTF a.append) then
    .error (.openVAConfigurationError "Problem in database: Advanced_InterVA_Conf.append.") else
  if !(isTF a.groupcode) then
    .error (.openVAConfigurationError "Problem in database: Advanced_InterVA_Conf.groupcode.") else
  if !(isTF a.replicate) then
    .error (.openVAConfigurationError "Problem in database: Advanced_InterVA_Conf.replicate.") else
  if !(isTF a.replicate_bug1) then
    .error (.openVAConfigurationError "Problem in database: Advanced_InterVA_Conf.replicate_bug1.") else
  if !(isTF a.replicate_bug2) then
    .error (.openVAConfigurationError "Problem in database: Advanced_InterVA_Conf.replicate_bug2.") else
  if !(isTF a.write) then
    .error (.openVAConfigurationError "Problem in database: Advanced_InterVA_Conf.write.") else
  .ok ⟨r.version, r.hiv, r.malaria, a.directory, a.filename, a.output, a.append,
       a.groupcode, a.replicate, a.replicate_bug1, a.replicate_bug2, a.write⟩

/-! ### __configInSilicoVA__ (transferDB.py lines 414-797) -/

/-- The single row of `InSilicoVA_Conf`. -/
structure InSilicoVARow where
  data_type : Option String
  Nsim : Option String
deriving DecidableEq

/-- The single row of `Advanced_InSilicoVA_Conf` (the 31 selected columns). -/
structure AdvInSilicoVARow where
  isNumeric : Option String
  updateCondProb : Option String
  keepProbbase_level : Option String
  CondProb : Option String
  CondProbNum : Option String
  datacheck : Option String
  datacheck_missing : Option String
  warning_write : Option String
  directory : Option String
  external_sep : Option String
  thin : Option String
  burnin : Option String
  auto_length : Option String
  conv_csmf : Option String
  jump_scale : Option String
  levels_prior : Option String
  levels_strength : Option String
  trunc_min : Option String
  trunc_max : Option String
  subpop : Option String
  java_option : Option String
  seed : Option String
  phy_code : Option String
  phy_cat : Option String
  phy_unknown : Option String
  phy_external : Option String
  phy_debias : Option String
  exclude_impossible_cause : Option String
  no_is_missing : Option String
  indiv_CI : Option String
  groupcode : Option String
deriving DecidableEq

/-- The `ntInSilicoVA` namedtuple repackages the 33 extracted cells
unchanged; it is modelled as the pair of validated first rows. -/
structure InSilicoVASettings where
  base : InSilicoVARow
  adv : AdvInSilicoVARow
deriving DecidableEq

/-- The directory block of `__configInSilicoVA__` (lines 519-525): the
sentinel `usePipelineVar` skips the check, otherwise the cell is joined to
the pipeline directory and must be an existing directory. -/
def chkDirInSilico (existingDirs : List String) (pipelineDir : String)
    (v : Option String) : Except PyError Unit :=
  if v == some "usePipelineVar" then .ok ()
  else
    match v with
    | none => .error .typeError
    | some dir =>
      if existingDirs.contains (pjoin pipelineDir dir) then .ok ()
      else .error (.openVAConfigurationError "Problem in database: InSilicoVA_Conf.directory")

/-- The java_option block of `__configInSilicoVA__` (lines 637-665):
shape `-Xmx<number><m|g>` with a positive numeric body. -/
def chkJavaOption (v : Option String) : Except PyError Unit :=
  match v with
  | none => .error .typeError
  | some s =>
    if s == "" || s.data.length < 6 then
      .error (.openVAConfigurationError "Problem in database: InSilicoVA_Conf.java_option (should look like -Xmx1g)") else
    if !(s.data.take 4 == "-Xmx".data) then
      .error (.openVAConfigurationError "Problem in database: InSilicoVA_Conf.java_option (should start with -Xmx)") else
    if !(s.data.getLast? == some 'm' || s.data.getLast? == some 'g') then
      .error (.openVAConfigurationError "Problem in database: InSilicoVA_Conf.java_option (should end with g for gigabyts or m for megabytes)") else
    match pyFloat ⟨(s.data.drop 4).dropLast⟩ with
    | none => .error (.openVAConfigurationError "Problem in database: InSilicoVA_Conf.java_option (should look like -Xmx1g)")
    | some x =>
      if x.pos then .ok ()
      else .error (.openVAConfigurationError "Problem in database: InSilicoVA_Conf.java_option (should look like -Xmx1g)")

/-- Embedding of `TransferDB.__configInSilicoVA__`, checks in source order. -/
def configInSilicoVA (existingDirs : List String) (pipelineDir : String)
    (rows : List InSilicoVARow) (advRows : List AdvInSilicoVARow) :
    Except PyError InSilicoVASettings :=
  match rows with
  | [] => .error .indexError
  | b :: _ =>
  if !(memb b.data_type ["WHO2012", "WHO2016"]) then
    .error (.openVAConfigurationError "Problem in database: InSilicoVA_Conf.data_type") else
  if isEmptyOrNull b.Nsim then
    .error (.openVAConfigurationError "Problem in database: InSilicoVA_Conf.Nsim") else
  match advRows with
  | [] => .error .indexError
  | a :: _ =>
  if !(isTF a.isNumeric) then
    .error (.openVAConfigurationError "Problem in database: InSilicoVA_Conf.isNumeric") else
  if !(isTF a.updateCondProb) then
    .error (.openVAConfigurationError "Problem in database: InSilicoVA_Conf.updateCondProb") else
  if !(isTF a.keepProbbase_level) then
    .error (.openVAConfigurationError "Problem in database: InSilicoVA_Conf.keepProbbase_level") else
  if isEmptyOrNull a.CondProb then
    .error (.openVAConfigurationError "Problem in database: InSilicoVA_Conf.CondProb") else
  if !(condProbNumOk a.CondProbNum) then
    .error (.openVAConfigurationError "Problem in database: InSilicoVA_Conf.CondProbNum") else
  if !(isTF a.datacheck) then
    .error (.openVAConfigurationError "Problem in database: InSilicoVA_Conf.datacheck") else
  if !(isTF a.datacheck_missing) then
    .error (.openVAConfigurationError "Problem in database: InSilicoVA_Conf.datacheck_missing") else
  if !(isTF a.warning_write) then
    .error (.openVAConfigurationError "Problem in database: InSilicoVA_Conf.warning_write") else
  match chkDirInSilico existingDirs pipelineDir a.directory with
  | .error e => .error e
  | .ok _ =>
  if !(isTF a.external_sep) then
    .error (.openVAConfigurationError "Problem in database: InSilicoVA_Conf.external_sep") else
  if !(posNum a.thin) then
    .error (.openVAConfigurationError "Problem in database: InSilicoVA_Conf.thin") else
  if !(posNum a.burnin) then
    .error (.openVAConfigurationError "Problem in database: InSilicoVA_Conf.burnin") else
  if !(isTF a.auto_length) then
    .error (.openVAConfigurationError "Problem in database: InSilicoVA_Conf.auto_length") else
  if !(prob01 a.conv_csmf) then
    .error (.openVAConfigurationError "Problem in database: InSilicoVA_Conf.conv_csmf") else
  if !(posNum a.jump_scale) then
    .error (.openVAConfigurationError "Problem in database: InSilicoVA_Conf.jump_scale") else
  if isEmptyOrNull a.levels_prior then
    .error (.openVAConfigurationError "Problem in database: InSilicoVA_Conf.levels_prior") else
  if !(posNum a.levels_strength) then
    .error (.openVAConfigurationError "Problem in database: InSilicoVA_Conf.levels_strength") else
  if !(prob01 a.trunc_min) then
    .error (.openVAConfigurationError "Problem in database: InSilicoVA_Conf.trunc_min") else
  if !(prob01 a.trunc_max) then
    .error (.openVAConfigurationError "Problem in database: InSilicoVA_Conf.trunc_max") else
  if isEmptyOrNull a.subpop then
    .error (.openVAConfigurationError "Problem in database: InSilicoVA_Conf.subpop") else
  match chkJavaOption a.java_option with
  | .error e => .error e
  | .ok _ =>
  if !(parsesNum a.seed) then
    .error (.openVAConfigurationError "Problem in database: InSilicoVA_Conf.seed") else
  if isEmptyOrNull a.phy_code then
    .error (.openVAConfigurationError "Problem in database: InSilicoVA_Conf.phy_code") else
  if isEmptyOrNull a.phy_cat then
    .error (.openVAConfigurationError "Problem in database: InSilicoVA_Conf.phy_cat") else
  if isEmptyOrNull a.phy_unknown then
    .error (.openVAConfigurationError "Problem in database: InSilicoVA_Conf.phy_unknown") else
  if isEmptyOrNull a.phy_external then
    .error (.openVAConfigurationError "Problem in database: InSilicoVA_Conf.phy_external") else
  if isEmptyOrNull a.phy_debias then
    .error (.openVAConfigurationError "Problem in database: InSilicoVA_Conf.phy_debias") else
  if !(memb a.exclude_impossible_cause ["subset", "all", "InterVA", "none"]) then
    .error (.openVAConfigurationError "Problem in database: InSilicoVA_Conf.exclude_impossible_cause") else
  if !(isTF a.no_is_missing) then
    .error (.openVAConfigurationError "Problem in database: InSilicoVA_Conf.no_is_missing") else
  if !(indivCIOk a.indiv_CI) then
    .error (.openVAConfigurationError "Problem in database: InSilicoVA_Conf.indiv_CI") else
  if !(isTF a.groupcode) then
    .error (.openVAConfigurationError "Problem in database: InSilicoVA_Conf.groupcode") else
  .ok ⟨b, a⟩

/-! ### __configSmartVA__ (transferDB.py lines 799-881) -/

/-- The single row of `SmartVA_Conf`. -/
structure SmartVARow where
  country : Option String
  hiv : Option String
  malaria : Option String
  hce : Option String
  freetext : Option String
  figures : Option String
  language : Option String
deriving DecidableEq

/-- The `ntSmartVA` namedtuple: the seven validated cells, unchanged. -/
structure SmartVASettings where
  country : Option String
  hiv : Option String
  malaria : Option String
  hce : Option String
  freetext : Option String
  figures : Option String
  language : Option String
deriving DecidableEq

/-- Embedding of `TransferDB.__configSmartVA__`.  `countryList` is the
flattened `abbrev` column of `SmartVA_Country`.  Note the boolean cells of
this validator are tested against the Python-style literals
`"True"`/`"False"`, unlike the other two validators. -/
def configSmartVA (rows : List SmartVARow) (countryList : List (Option String)) :
    Except PyError SmartVASettings :=
  match rows with
  | [] => .error .indexError
  | r :: _ =>
  if !(countryList.contains r.country) then
    .error (.openVAConfigurationError "Problem in database: SmartVA_Conf.country") else
  if !(isTrueFalse r.hiv) then
    .error (.openVAConfigurationError "Problem in database: SmartVA_Conf.hiv") else
  if !(isTrueFalse r.malaria) then
    .error (.openVAConfigurationError "Problem in database: SmartVA_Conf.malaria") else
  if !(isTrueFalse r.hce) then
    .error (.openVAConfigurationError "Problem in database: SmartVA_Conf.hce") else
  if !(isTrueFalse r.freetext) then
    .error (.openVAConfigurationError "Problem in database: SmartVA_Conf.freetext") else
  if !(isTrueFalse r.figures) then
    .error (.openVAConfigurationError "Problem in database: SmartVA_Conf.figures") else
  if !(memb r.language ["english", "chinese", "spanish"]) then
    .error (.openVAConfigurationError "Problem in database: SmartVA_Conf.language") else
  .ok ⟨r.country, r.hiv, r.malaria, r.hce, r.freetext, r.figures, r.language⟩

/-! ### configOpenVA (transferDB.py lines 252-289) -/

/-- The settings value returned by configOpenVA, tagged by the family
validator that produced it. -/
inductive OpenVAOut where
  | interVA (s : InterVASettings)
  | inSilicoVA (s : InSilicoVASettings)
  | smartVA (s : SmartVASettings)
deriving DecidableEq

/-- Embedding of `TransferDB.configOpenVA`: the dispatch on `algorithm`.
An algorithm in `("InterVA4", "InterVA5")` goes to `__configInterVA__`,
the exact string `"InSilicoVA"` goes to `__configInSilicoVA__`, and every
other value falls into the `else` branch and goes to `__configSmartVA__`. -/
def configOpenVA (existingDirs : List String) (pipelineDir : String)
    (algorithm : Option String)
    (intervaRows : List InterVARow) (advIntervaRows : List AdvInterVARow)
    (insilicoRows : List InSilicoVARow) (advInsilicoRows : List AdvInSilicoVARow)
    (smartvaRows : List SmartVARow) (countryList : List (Option String)) :
    Except PyError OpenVAOut :=
  if memb algorithm ["InterVA4", "InterVA5"] then
    (configInterVA existingDirs pipelineDir intervaRows advIntervaRows).map OpenVAOut.interVA
  else if algorithm == some "InSilicoVA" then
    (configInSilicoVA existingDirs pipelineDir insilicoRows advInsilicoRows).map OpenVAOut.inSilicoVA
  else
    (configSmartVA smartvaRows countryList).map OpenVAOut.smartVA

/-! ### Result and blob recorder (transferDB.py lines 949-999)

`TransferDB.storeVA` and `TransferDB.storeBlob` exist in the source only as
stubs: each body is `pass`, the methods take no record data beyond `self`,
write nothing to the store and raise nothing.  The de-duplication membership
test `isNew` does not appear in the source at all and is therefore not
defined here. -/

/-- Abstract contents of the store's VARecord table (submissionId paired
with its payload), used only to state what the stub methods do to it. -/
structure VAStoreState where
  records : List (String × String)
deriving DecidableEq

/-- Embedding of `TransferDB.storeVA` (lines 949-973): the body is `pass`,
so on any store state the call leaves the store unchanged and raises no
error (Python returns None). -/
def storeVA (st : VAStoreState) : VAStoreState × Option PyError :=
  (st, none)

/-- Embedding of `TransferDB.storeBlob` (lines 975-999): the body is `pass`,
so on any store state the call leaves the store unchanged and raises no
error (Python returns None). -/
def storeBlob (st : VAStoreState) : VAStoreState × Option PyError :=
  (st, none)

/-! ### Concrete fixtures: one fully valid configuration per domain -/

/-- Directories that exist in the concrete scenarios. -/
def wdDirs : List String := ["/wd", "/wd/interva"]

/-- A one-element `Algorithm_Metadata_Options.dhisCode` reference set. -/
def mdqEx : List (Option String) := [some "metaCode"]

/-- A `Pipeline_Conf` row that is valid apart from the given algorithm. -/
def pipelineRowAlg (alg : String) : PipelineRow :=
  ⟨some "metaCode", some "ICD10", some alg, some "/wd"⟩

/-- A fully valid `ODK_Conf` row (the boundary scenario of the spec). -/
def odkRowOk : ODKRow :=
  ⟨some "odkid", some "https://odk.example", some "user", some "pw", some "form",
   some "2023-05-10_23:59:00", some "success"⟩

/-- A valid `InterVA_Conf` row. -/
def intervaRowOk : InterVARow := ⟨some "5", some "v", some "l"⟩

/-- A valid `Advanced_InterVA_Conf` row. -/
def advIntervaRowOk : AdvInterVARow :=
  ⟨some "interva", some "out.csv", some "classic", some "TRUE", some "TRUE",
   some "FALSE", some "FALSE", some "FALSE", some "TRUE"⟩

/-- A valid `InSilicoVA_Conf` row. -/
def insilicoRowOk : InSilicoVARow := ⟨some "WHO2016", some "4000"⟩

/-- A valid `Advanced_InSilicoVA_Conf` row. -/
def advInsilicoRowOk : AdvInSilicoVARow :=
  ⟨some "FALSE", some "TRUE", some "TRUE", some "condprob", some "NULL",
   some "TRUE", some "TRUE", some "TRUE", some "usePipelineVar", some "TRUE",
   some "10", some "4000", some "TRUE", some "0.02", some "0.1", some "levels",
   some "1", some "0.0001", some "0.9999", some "sub", some "-Xmx1g", some "1",
   some "pc", some "pcat", some "pu", some "pe", some "pd", some "subset",
   some "FALSE", some "NULL", some "FALSE"⟩

/-- A valid `SmartVA_Conf` row. -/
def smartvaRowOk : SmartVARow :=
  ⟨some "USA", some "True", some "False", some "True", some "False",
   some "True", some "english"⟩

/-- The `SmartVA_Country.abbrev` reference list of the scenarios. -/
def countryListEx : List (Option String) := [some "USA"]

/-- A valid `DHIS_Conf` row. -/
def dhisRowOk : DHISRow := ⟨some "https://dhis.example", some "user", some "pw", some "ou"⟩

/-- An `ODK_Conf` row valid except for a malformed `odkLastRun` timestamp. -/
def odkRowBadTime : ODKRow :=
  ⟨some "odkid", some "https://odk.example", some "user", some "pw", some "form",
   some "2023-99-99_00:00:00", some "success"⟩

/-- Discriminator: did the loader raise `PipelineConfigurationError`? -/
def isPipelineConfigurationError {α : Type} : Except PyError α → Bool
  | .error (.pipelineConfigurationError _) => true
  | _ => false

/-- Discriminator: did the loader raise `ODKConfigurationError`? -/
def isODKConfigurationError {α : Type} : Except PyError α → Bool
  | .error (.odkConfigurationError _) => true
  | _ => false

example : pyFloat "1.5" = some ⟨false, 15, 1⟩ := by decide
example : pyFloat "NULL" = none := by decide
example : pyFloat "-0.5" = some ⟨true, 5, 1⟩ := by decide
example : pyFloat "1e-2" = some ⟨false, 1, 2⟩ := by decide
example : pyFloat "2.5E3" = some ⟨false, 25000, 1⟩ := by decide
example : pyFloat "" = none := by decide
example : pyFloat "." = none := by decide
example : pyFloat ".5" = some ⟨false, 5, 1⟩ := by decide
example : parseDateTime "2023-05-10_23:59:00" = some ⟨2023, 5, 10, 23, 59, 0⟩ := by decide
example : parseDateTime "2023-02-29_00:00:00" = none := by decide
example : parseDateTime "2024-2-29_0:0:5" = some ⟨2024, 2, 29, 0, 0, 5⟩ := by decide
example : formatDateSlash ⟨2023, 5, 10⟩ = "2023/05/10" := by decide
example : prevDate ⟨2023, 5, 10⟩ = ⟨2023, 5, 9⟩ := by decide
example : prevDate ⟨2024, 3, 1⟩ = ⟨2024, 2, 29⟩ := by decide
example : prevDate ⟨2023, 1, 1⟩ = ⟨2022, 12, 31⟩ := by decide

/-! ## Helper lemmas -/

theorem DecNum.toRat_false (m k : Nat) :
    DecNum.toRat ⟨false, m, k⟩ = (m : ℚ) / (10 : ℚ) ^ k := by
  simp [DecNum.toRat]

theorem DecNum.toRat_true (m k : Nat) :
    DecNum.toRat ⟨true, m, k⟩ = -(m : ℚ) / (10 : ℚ) ^ k := by
  simp [DecNum.toRat]

theorem DecNum.nonneg_iff (x : DecNum) : x.nonneg = true ↔ 0 ≤ x.toRat := by
  obtain ⟨n, m, k⟩ := x
  have hp : (0 : ℚ) < (10 : ℚ) ^ k := by positivity
  cases n
  · rw [DecNum.toRat_false]
    have hL : DecNum.nonneg ⟨false, m, k⟩ = true := rfl
    rw [hL]
    simp only [true_iff]
    positivity
  · rw [DecNum.toRat_true]
    have hL : DecNum.nonneg ⟨true, m, k⟩ = (m == 0) := rfl
    rw [hL, beq_iff_eq]
    rw [le_div_iff₀ hp, zero_mul, neg_nonneg]
    constructor
    · intro h
      simp [h]
    · intro h
      have h0 : (0 : ℚ) ≤ (m : ℚ) := Nat.cast_nonneg m
      exact_mod_cast le_antisymm h h0

theorem DecNum.leOne_iff (x : DecNum) : x.leOne = true ↔ x.toRat ≤ 1 := by
  obtain ⟨n, m, k⟩ := x
  have hp : (0 : ℚ) < (10 : ℚ) ^ k := by positivity
  have hc : ((10 ^ k : ℕ) : ℚ) = (10 : ℚ) ^ k := by push_cast; ring
  cases n
  · rw [DecNum.toRat_false]
    have hL : DecNum.leOne ⟨false, m, k⟩ = decide (m ≤ 10 ^ k) := rfl
    rw [hL, decide_eq_true_eq]
    rw [div_le_one hp, ← hc, Nat.cast_le]
  · rw [DecNum.toRat_true]
    have hL : DecNum.leOne ⟨true, m, k⟩ = true := rfl
    rw [hL]
    simp only [true_iff]
    rw [div_le_one hp]
    calc -(m : ℚ) ≤ 0 := by simp
      _ ≤ (10 : ℚ) ^ k := le_of_lt hp

theorem DecNum.pos_iff (x : DecNum) : x.pos = true ↔ 0 < x.toRat := by
  obtain ⟨n, m, k⟩ := x
  have hp : (0 : ℚ) < (10 : ℚ) ^ k := by positivity
  cases n
  · rw [DecNum.toRat_false]
    have hL : DecNum.pos ⟨false, m, k⟩ = decide (0 < m) := rfl
    rw [hL, decide_eq_true_eq]
    rw [lt_div_iff₀ hp, zero_mul]
    exact_mod_cast Iff.rfl
  · rw [DecNum.toRat_true]
    have hL : DecNum.pos ⟨true, m, k⟩ = false := rfl
    rw [hL]
    simp only [Bool.false_eq_true, false_iff, not_lt]
    apply div_nonpos_of_nonpos_of_nonneg
    · simp
    · exact le_of_lt hp

theorem DecNum.ltOne_iff (x : DecNum) : x.ltOne = true ↔ x.toRat < 1 := by
  obtain ⟨n, m, k⟩ := x
  have hp : (0 : ℚ) < (10 : ℚ) ^ k := by positivity
  have hc : ((10 ^ k : ℕ) : ℚ) = (10 : ℚ) ^ k := by push_cast; ring
  cases n
  · rw [DecNum.toRat_false]
    have hL : DecNum.ltOne ⟨false, m, k⟩ = decide (m < 10 ^ k) := rfl
    rw [hL, decide_eq_true_eq]
    rw [div_lt_one hp, ← hc, Nat.cast_lt]
  · rw [DecNum.toRat_true]
    have hL : DecNum.ltOne ⟨true, m, k⟩ = true := rfl
    rw [hL]
    simp only [true_iff]
    rw [div_lt_one hp]
    calc -(m : ℚ) ≤ 0 := by simp
      _ < (10 : ℚ) ^ k := hp

theorem validDate_mk_iff (y m d : Nat) :
    ValidDate ⟨y, m, d⟩ ↔ (1 ≤ y ∧ 1 ≤ m ∧ m ≤ 12 ∧ 1 ≤ d ∧ d ≤ daysInMonth y m) :=
  Iff.rfl

theorem dateOf_mk (y m d hh mm ss : Nat) :
    dateOf ⟨y, m, d, hh, mm, ss⟩ = ⟨y, m, d⟩ :=
  rfl

theorem mkDT_bounds {y m d hh mm ss : Nat} {dt : PyDateTime}
    (h : mkDT y m d hh mm ss = some dt) : 1000 ≤ dt.year ∧ ValidDate (dateOf dt) := by
  unfold mkDT at h
  split at h
  · cases h
    rename_i hc
    obtain ⟨ha, hb, hcc, hdd, he, _⟩ := hc
    refine ⟨ha, ?_⟩
    rw [dateOf_mk, validDate_mk_iff]
    exact ⟨by omega, hb, hcc, hdd, he⟩
  · exact absurd h (by simp)

theorem parseDateTime_bounds {s : String} {dt : PyDateTime}
    (h : parseDateTime s = some dt) : 1000 ≤ dt.year ∧ ValidDate (dateOf dt) := by
  unfold parseDateTime at h
  cases hp : parseFields s.data with
  | none => rw [hp] at h; exact absurd h (by simp)
  | some f =>
    rw [hp] at h
    obtain ⟨y, m, d, hh, mm, ss⟩ := f
    exact mkDT_bounds h

theorem daysInMonth_pos {y m : Nat} (h1 : 1 ≤ m) (h2 : m ≤ 12) :
    1 ≤ daysInMonth y m := by
  interval_cases m <;> cases hL : isLeap y <;> simp [daysInMonth, hL]

theorem dayOrdinal_mk (y m d : Nat) :
    dayOrdinal ⟨y, m, d⟩ = daysBeforeYear y + daysBeforeMonth y m + d :=
  rfl

theorem prevDate_day {y m d : Nat} (hd : 1 < d) :
    prevDate ⟨y, m, d⟩ = ⟨y, m, d - 1⟩ := by
  unfold prevDate
  rw [if_pos hd]

theorem prevDate_month {y m d : Nat} (hd : ¬ 1 < d) (hm : 1 < m) :
    prevDate ⟨y, m, d⟩ = ⟨y, m - 1, daysInMonth y (m - 1)⟩ := by
  unfold prevDate
  rw [if_neg hd, if_pos hm]

theorem prevDate_year {y m d : Nat} (hd : ¬ 1 < d) (hm : ¬ 1 < m) :
    prevDate ⟨y, m, d⟩ = ⟨y - 1, 12, 31⟩ := by
  unfold prevDate
  rw [if_neg hd, if_neg hm]

theorem daysBeforeMonth_step {y m : Nat} (h2 : 2 ≤ m) (h12 : m ≤ 12) :
    daysBeforeMonth y m = daysBeforeMonth y (m - 1) + daysInMonth y (m - 1) := by
  interval_cases m <;> cases hL : isLeap y <;> simp [daysBeforeMonth, daysInMonth, hL]

theorem daysBeforeMonth_twelve (y : Nat) :
    daysBeforeMonth y 12 + 31 = (if isLeap y then 366 else 365) := by
  cases hL : isLeap y <;> simp [daysBeforeMonth, hL]

set_option maxHeartbeats 1600000 in
theorem daysBeforeYear_step {y : Nat} (hy : 2 ≤ y) :
    daysBeforeYear y = daysBeforeYear (y - 1) + (if isLeap (y - 1) then 366 else 365) := by
  have hn : 1 ≤ y - 1 := by omega
  cases hB : isLeap (y - 1)
  · have hL : ¬ (((y - 1) % 4 = 0 ∧ ¬(y - 1) % 100 = 0) ∨ (y - 1) % 400 = 0) := by
      simpa [isLeap] using hB
    rw [if_neg (by simp)]
    unfold daysBeforeYear
    clear hB hy
    generalize y - 1 = n at *
    omega
  · have hL : ((y - 1) % 4 = 0 ∧ ¬(y - 1) % 100 = 0) ∨ (y - 1) % 400 = 0 := by
      simpa [isLeap] using hB
    rw [if_pos rfl]
    unfold daysBeforeYear
    clear hB hy
    generalize y - 1 = n at *
    omega

theorem prevDate_valid_ordinal {dte : PyDate} (hv : ValidDate dte) (hy : 2 ≤ dte.year) :
    ValidDate (prevDate dte) ∧ dayOrdinal (prevDate dte) + 1 = dayOrdinal dte := by
  obtain ⟨y, m, d⟩ := dte
  rw [validDate_mk_iff] at hv
  obtain ⟨h1, h2, h3, h4, h5⟩ := hv
  have hy2 : 2 ≤ y := hy
  by_cases hd : 1 < d
  · rw [prevDate_day hd]
    constructor
    · rw [validDate_mk_iff]
      exact ⟨h1, h2, h3, by omega, by omega⟩
    · rw [dayOrdinal_mk, dayOrdinal_mk]
      omega
  · by_cases hm : 1 < m
    · rw [prevDate_month hd hm]
      have hstep := daysBeforeMonth_step (y := y) (m := m) (by omega) h3
      have hpos := daysInMonth_pos (y := y) (m := m - 1) (by omega) (by omega)
      constructor
      · rw [validDate_mk_iff]
        exact ⟨h1, by omega, by omega, hpos, le_refl _⟩
      · rw [dayOrdinal_mk, dayOrdinal_mk]
        omega
    · rw [prevDate_year hd hm]
      have hm1 : m = 1 := by omega
      subst hm1
      constructor
      · rw [validDate_mk_iff]
        refine ⟨by omega, by omega, by omega, by omega, ?_⟩
        simp [daysInMonth]
      · rw [dayOrdinal_mk, dayOrdinal_mk]
        have h12 := daysBeforeMonth_twelve (y - 1)
        have hstep := daysBeforeYear_step hy2
        have hbm1 : daysBeforeMonth y 1 = 0 := rfl
        cases hB : isLeap (y - 1) <;> simp only [hB] at h12 hstep <;>
          simp at h12 hstep <;> omega

theorem configODK_ok {row : ODKRow} {url lr : String} {dt : PyDateTime}
    (hurl : row.odkURL = some url) (hu : urlOk url = true)
    (hr : lrrOk row.odkLastRunResult = true)
    (hlr : row.odkLastRun = some lr) (hdt : parseDateTime lr = some dt) :
    configODK [row] = .ok ⟨row.odkID, row.odkURL, row.odkUser, row.odkPassword, row.odkFormID,
      row.odkLastRun, row.odkLastRunResult, formatDateSlash (dateOf dt),
      formatDateSlash (prevDate (dateOf dt))⟩ := by
  obtain ⟨oid, ourl, ouser, opw, ofd, olr, olrr⟩ := row
  have hurl' : ourl = some url := hurl
  have hlr' : olr = some lr := hlr
  have hr' : lrrOk olrr = true := hr
  subst hurl' hlr'
  simp [configODK, hu, hr', hdt]

theorem configODK_valueError {row : ODKRow} {url lr : String}
    (hurl : row.odkURL = some url) (hu : urlOk url = true)
    (hr : lrrOk row.odkLastRunResult = true)
    (hlr : row.odkLastRun = some lr) (hdt : parseDateTime lr = none) :
    configODK [row] =
      .error (.valueError ("time data " ++ lr ++ " does not match format %Y-%m-%d_%H:%M:%S")) := by
  obtain ⟨oid, ourl, ouser, opw, ofd, olr, olrr⟩ := row
  have hurl' : ourl = some url := hurl
  have hlr' : olr = some lr := hlr
  have hr' : lrrOk olrr = true := hr
  subst hurl' hlr'
  simp [configODK, hu, hr', hdt]

theorem interVA_append_eval (v : Option String) :
    configInterVA wdDirs "/wd" [intervaRowOk] [{ advIntervaRowOk with append := v }] =
      (if isTF v then
        .ok ⟨some "5", some "v", some "l", some "interva", some "out.csv", some "classic",
             v, some "TRUE", some "FALSE", some "FALSE", some "FALSE", some "TRUE"⟩
       else .error (.openVAConfigurationError "Problem in database: Advanced_InterVA_Conf.append.")) := by
  have e1 : memb (some "5") ["4", "5"] = true := by decide
  have e2 : memb (some "v") ["v", "l", "h"] = true := by decide
  have e3 : memb (some "l") ["v", "l", "h"] = true := by decide
  have e4 : wdDirs.contains (pjoin "/wd" "interva") = true := by decide
  have e5 : ((some "out.csv" : Option String) == none || (some "out.csv" : Option String) == some "") = false := by decide
  have e6 : memb (some "classic") ["classic", "extended"] = true := by decide
  have e7 : isTF (some "TRUE") = true := by decide
  have e8 : isTF (some "FALSE") = true := by decide
  cases hv : isTF v <;>
    simp [configInterVA, intervaRowOk, advIntervaRowOk, e1, e2, e3, e4, e5, e6, e7, e8, hv] <;>
    decide

theorem smartVA_hiv_eval (v : Option String) :
    configSmartVA [{ smartvaRowOk with hiv := v }] countryListEx =
      (if isTrueFalse v then
        .ok ⟨some "USA", v, some "False", some "True", some "False", some "True", some "english"⟩
       else .error (.openVAConfigurationError "Problem in database: SmartVA_Conf.hiv")) := by
  have e1 : countryListEx.contains (some "USA") = true := by decide
  have e2 : isTrueFalse (some "True") = true := by decide
  have e3 : isTrueFalse (some "False") = true := by decide
  have e4 : memb (some "english") ["english", "chinese", "spanish"] = true := by decide
  cases hv : isTrueFalse v <;>
    simp [configSmartVA, smartvaRowOk, e1, e2, e3, e4, hv] <;>
    decide

theorem insilico_isNumeric_eval (v : Option String) :
    configInSilicoVA wdDirs "/wd" [insilicoRowOk] [{ advInsilicoRowOk with isNumeric := v }] =
      (if isTF v then .ok ⟨insilicoRowOk, { advInsilicoRowOk with isNumeric := v }⟩
       else .error (.openVAConfigurationError "Problem in database: InSilicoVA_Conf.isNumeric")) := by
  have e1 : memb (some "WHO2016") ["WHO2012", "WHO2016"] = true := by decide
  have e2 : isEmptyOrNull (some "4000") = false := by decide
  have e3 : isTF (some "TRUE") = true := by decide
  have e4 : isTF (some "FALSE") = true := by decide
  have e5 : isEmptyOrNull (some "condprob") = false := by decide
  have e6 : condProbNumOk (some "NULL") = true := by decide
  have e7 : chkDirInSilico wdDirs "/wd" (some "usePipelineVar") = .ok () := by decide
  have e8 : posNum (some "10") = true := by decide
  have e9 : posNum (some "4000") = true := by decide
  have e10 : prob01 (some "0.02") = true := by decide
  have e11 : posNum (some "0.1") = true := by decide
  have e12 : isEmptyOrNull (some "levels") = false := by decide
  have e13 : posNum (some "1") = true := by decide
  have e14 : prob01 (some "0.0001") = true := by decide
  have e15 : prob01 (some "0.9999") = true := by decide
  have e16 : isEmptyOrNull (some "sub") = false := by decide
  have e17 : chkJavaOption (some "-Xmx1g") = .ok () := by decide
  have e18 : parsesNum (some "1") = true := by decide
  have e19 : isEmptyOrNull (some "pc") = false := by decide
  have e20 : isEmptyOrNull (some "pcat") = false := by decide
  have e21 : isEmptyOrNull (some "pu") = false := by decide
  have e22 : isEmptyOrNull (some "pe") = false := by decide
  have e23 : isEmptyOrNull (some "pd") = false := by decide
  have e24 : memb (some "subset") ["subset", "all", "InterVA", "none"] = true := by decide
  have e25 : indivCIOk (some "NULL") = true := by decide
  cases hv : isTF v <;>
    simp [configInSilicoVA, insilicoRowOk, advInsilicoRowOk, e1, e2, e3, e4, e5, e6, e7, e8,
      e9, e10, e11, e12, e13, e14, e15, e16, e17, e18, e19, e20, e21, e22, e23, e24, e25, hv]

theorem insilico_condProbNum_eval (v : Option String) :
    configInSilicoVA wdDirs "/wd" [insilicoRowOk] [{ advInsilicoRowOk with CondProbNum := v }] =
      (if condProbNumOk v then .ok ⟨insilicoRowOk, { advInsilicoRowOk with CondProbNum := v }⟩
       else .error (.openVAConfigurationError "Problem in database: InSilicoVA_Conf.CondProbNum")) := by
  have e1 : memb (some "WHO2016") ["WHO2012", "WHO2016"] = true := by decide
  have e2 : isEmptyOrNull (some "4000") = false := by decide
  have e3 : isTF (some "TRUE") = true := by decide
  have e4 : isTF (some "FALSE") = true := by decide
  have e5 : isEmptyOrNull (some "condprob") = false := by decide
  have e7 : chkDirInSilico wdDirs "/wd" (some "usePipelineVar") = .ok () := by decide
  have e8 : posNum (some "10") = true := by decide
  have e9 : posNum (some "4000") = true := by decide
  have e10 : prob01 (some "0.02") = true := by decide
  have e11 : posNum (some "0.1") = true := by decide
  have e12 : isEmptyOrNull (some "levels") = false := by decide
  have e13 : posNum (some "1") = true := by decide
  have e14 : prob01 (some "0.0001") = true := by decide
  have e15 : prob01 (some "0.9999") = true := by decide
  have e16 : isEmptyOrNull (some "sub") = false := by decide
  have e17 : chkJavaOption (some "-Xmx1g") = .ok () := by decide
  have e18 : parsesNum (some "1") = true := by decide
  have e19 : isEmptyOrNull (some "pc") = false := by decide
  have e20 : isEmptyOrNull (some "pcat") = false := by decide
  have e21 : isEmptyOrNull (some "pu") = false := by decide
  have e22 : isEmptyOrNull (some "pe") = false := by decide
  have e23 : isEmptyOrNull (some "pd") = false := by decide
  have e24 : memb (some "subset") ["subset", "all", "InterVA", "none"] = true := by decide
  have e25 : indivCIOk (some "NULL") = true := by decide
  cases hv : condProbNumOk v <;>
    simp [configInSilicoVA, insilicoRowOk, advInsilicoRowOk, e1, e2, e3, e4, e5, e7, e8,
      e9, e10, e11, e12, e13, e14, e15, e16, e17, e18, e19, e20, e21, e22, e23, e24, e25, hv]

theorem insilico_indivCI_eval (v : Option String) :
    configInSilicoVA wdDirs "/wd" [insilicoRowOk] [{ advInsilicoRowOk with indiv_CI := v }] =
      (if indivCIOk v then .ok ⟨insilicoRowOk, { advInsilicoRowOk with indiv_CI := v }⟩
       else .error (.openVAConfigurationError "Problem in database: InSilicoVA_Conf.indiv_CI")) := by
  have e1 : memb (some "WHO2016") ["WHO2012", "WHO2016"] = true := by decide
  have e2 : isEmptyOrNull (some "4000") = false := by decide
  have e3 : isTF (some "TRUE") = true := by decide
  have e4 : isTF (some "FALSE") = true := by decide
  have e5 : isEmptyOrNull (some "condprob") = false := by decide
  have e6 : condProbNumOk (some "NULL") = true := by decide
  have e7 : chkDirInSilico wdDirs "/wd" (some "usePipelineVar") = .ok () := by decide
  have e8 : posNum (some "10") = true := by decide
  have e9 : posNum (some "4000") = true := by decide
  have e10 : prob01 (some "0.02") = true := by decide
  have e11 : posNum (some "0.1") = true := by decide
  have e12 : isEmptyOrNull (some "levels") = false := by decide
  have e13 : posNum (some "1") = true := by decide
  have e14 : prob01 (some "0.0001") = true := by decide
  have e15 : prob01 (some "0.9999") = true := by decide
  have e16 : isEmptyOrNull (some "sub") = false := by decide
  have e17 : chkJavaOption (some "-Xmx1g") = .ok () := by decide
  have e18 : parsesNum (some "1") = true := by decide
  have e19 : isEmptyOrNull (some "pc") = false := by decide
  have e20 : isEmptyOrNull (some "pcat") = false := by decide
  have e21 : isEmptyOrNull (some "pu") = false := by decide
  have e22 : isEmptyOrNull (some "pe") = false := by decide
  have e23 : isEmptyOrNull (some "pd") = false := by decide
  have e24 : memb (some "subset") ["subset", "all", "InterVA", "none"] = true := by decide
  cases hv : indivCIOk v <;>
    simp [configInSilicoVA, insilicoRowOk, advInsilicoRowOk, e1, e2, e3, e4, e5, e6, e7, e8,
      e9, e10, e11, e12, e13, e14, e15, e16, e17, e18, e19, e20, e21, e22, e23, e24, hv]

example : (configPipeline wdDirs mdqEx [pipelineRowAlg "InterVA"]).isOk = true := by decide
example : (configODK [odkRowOk]).isOk = true := by decide
example : (configInterVA wdDirs "/wd" [intervaRowOk] [advIntervaRowOk]).isOk = true := by decide
example : (configInSilicoVA wdDirs "/wd" [insilicoRowOk] [advInsilicoRowOk]).isOk = true := by decide
example : (configSmartVA [smartvaRowOk] countryListEx).isOk = true := by decide
example : (configDHIS [dhisRowOk]).isOk = true := by decide

/-! ## Claim theorems -/

/-- C1 (code bug, failing-input evaluation).  The claim states that every
algorithm value accepted by configPipeline is dispatched by configOpenVA to
that family's validator.  In the code, configPipeline accepts the strings
InterVA and Insilico while configOpenVA dispatches on InterVA4/InterVA5 and
InSilicoVA, so the accepted values InterVA and Insilico both fall through to
the SmartVA validator; only InterVA5 reaches the InterVA validator. -/
theorem claim1_dispatch_mismatch :
    configPipeline wdDirs mdqEx [pipelineRowAlg "InterVA"] =
      .ok ⟨some "metaCode", some "ICD10", some "InterVA", some "/wd"⟩ ∧
    configOpenVA wdDirs "/wd" (some "InterVA") [intervaRowOk] [advIntervaRowOk]
        [insilicoRowOk] [advInsilicoRowOk] [smartvaRowOk] countryListEx =
      .ok (.smartVA ⟨some "USA", some "True", some "False", some "True", some "False",
        some "True", some "english"⟩) ∧
    configPipeline wdDirs mdqEx [pipelineRowAlg "Insilico"] =
      .ok ⟨some "metaCode", some "ICD10", some "Insilico", some "/wd"⟩ ∧
    configOpenVA wdDirs "/wd" (some "Insilico") [intervaRowOk] [advIntervaRowOk]
        [insilicoRowOk] [advInsilicoRowOk] [smartvaRowOk] countryListEx =
      .ok (.smartVA ⟨some "USA", some "True", some "False", some "True", some "False",
        some "True", some "english"⟩) ∧
    configOpenVA wdDirs "/wd" (some "InterVA5") [intervaRowOk] [advIntervaRowOk]
        [insilicoRowOk] [advInsilicoRowOk] [smartvaRowOk] countryListEx =
      .ok (.interVA ⟨some "5", some "v", some "l", some "interva", some "out.csv",
        some "classic", some "TRUE", some "TRUE", some "FALSE", some "FALSE",
        some "FALSE", some "TRUE"⟩) :=
  ⟨by decide, by decide, by decide, by decide, by decide⟩

/-- C2 (code bug, failing-input evaluation).  The claim states configPipeline
accepts exactly the set InterVA, InSilicoVA, SmartVA, InterVA5, checking its
four constraints in order and naming the offending field.  The code checks
membership in ("InterVA", "Insilico", "SmartVA", "InterVA5"): the value
InSilicoVA is rejected and the value Insilico accepted.  The remaining
conjuncts confirm the claimed checking order and field naming. -/
theorem claim2_algorithm_token_mismatch :
    configPipeline wdDirs mdqEx [pipelineRowAlg "InSilicoVA"] =
      .error (.pipelineConfigurationError "Problem in database: Pipeline_Conf.algorithm") ∧
    configPipeline wdDirs mdqEx [pipelineRowAlg "Insilico"] =
      .ok ⟨some "metaCode", some "ICD10", some "Insilico", some "/wd"⟩ ∧
    configPipeline wdDirs mdqEx [⟨some "nope", some "BAD", some "BAD", some "/nope"⟩] =
      .error (.pipelineConfigurationError "Problem in database: Pipeline_Conf.algorithmMetadataCode") ∧
    configPipeline wdDirs mdqEx [⟨some "metaCode", some "BAD", some "BAD", some "/nope"⟩] =
      .error (.pipelineConfigurationError "Problem in database: Pipeline_Conf.codSource") ∧
    configPipeline wdDirs mdqEx [⟨some "metaCode", some "ICD10", some "BAD", some "/nope"⟩] =
      .error (.pipelineConfigurationError "Problem in database: Pipeline_Conf.algorithm") ∧
    configPipeline wdDirs mdqEx [⟨some "metaCode", some "ICD10", some "InterVA5", some "/nope"⟩] =
      .error (.pipelineConfigurationError "Problem in database: Pipeline_Conf.workingDirectory") ∧
    configPipeline wdDirs mdqEx [pipelineRowAlg "InterVA5"] =
      .ok ⟨some "metaCode", some "ICD10", some "InterVA5", some "/wd"⟩ :=
  ⟨by decide, by decide, by decide, by decide, by decide, by decide, by decide⟩

/-- C3 (code bug: the Recorder is unimplemented).  The claim says isNew
returns false for a recorded submissionId and that storeVA on the duplicate
fails with a store error rather than silently overwriting.  In the source
there is no isNew at all, and storeVA and storeBlob are `pass` stubs:
invoked on any store state — in particular one that already records the
submissionId — they accept no record data, leave the store unchanged and
raise nothing, so a duplicate store attempt silently does nothing instead
of failing. -/
theorem claim3_recorder_unimplemented (st : VAStoreState) :
    storeVA st = (st, none) ∧ storeBlob st = (st, none) :=
  ⟨rfl, rfl⟩

/-- Witness for C3 at a store that already records submissionId VA-1:
the duplicate store attempt changes nothing and raises no error. -/
theorem claim3_witness :
    storeVA ⟨[("VA-1", "coded")]⟩ = (⟨[("VA-1", "coded")]⟩, none) ∧
    storeBlob ⟨[("VA-1", "coded")]⟩ = (⟨[("VA-1", "coded")]⟩, none) :=
  claim3_recorder_unimplemented ⟨[("VA-1", "coded")]⟩

/-- C4 counterexample.  The claim states that a loader whose query returns an
empty result set raises PipelineConfigurationError; in the code the
uncaught indexing `fetchall()[0]` raises a plain IndexError instead
(configODK shown at the empty result set). -/
theorem claim4_counterexample :
    configODK [] = .error .indexError ∧
    isPipelineConfigurationError (configODK []) = false :=
  ⟨rfl, rfl⟩

/-- C4 (amended).  On an empty result set every configuration loader raises
an uncaught IndexError — an error, never default values — rather than
PipelineConfigurationError. -/
theorem claim4_empty_result_index_error :
    (∀ dirs mdq, configPipeline dirs mdq [] = .error .indexError) ∧
    configODK [] = .error .indexError ∧
    (∀ dirs pd (adv : List AdvInterVARow), configInterVA dirs pd [] adv = .error .indexError) ∧
    (∀ dirs pd, configInterVA dirs pd [intervaRowOk] [] = .error .indexError) ∧
    (∀ dirs pd (adv : List AdvInSilicoVARow), configInSilicoVA dirs pd [] adv = .error .indexError) ∧
    (∀ dirs pd, configInSilicoVA dirs pd [insilicoRowOk] [] = .error .indexError) ∧
    (∀ cl, configSmartVA [] cl = .error .indexError) ∧
    configDHIS [] = .error .indexError :=
  ⟨fun _ _ => rfl, rfl, fun _ _ _ => rfl, fun _ _ => rfl,
   fun _ _ _ => rfl, fun _ _ => rfl, fun _ => rfl, rfl⟩

/-- Witness for C4 at concrete empty result sets. -/
theorem claim4_witness :
    configPipeline [] [] [] = .error .indexError ∧
    configSmartVA [] [] = .error .indexError :=
  ⟨claim4_empty_result_index_error.1 [] [], claim4_empty_result_index_error.2.2.2.2.2.2.1 []⟩

/-- C5 counterexample.  The claim states a malformed lastRun raises
ODKConfigurationError; the code leaves `strptime` unguarded, so a plain
ValueError escapes instead. -/
theorem claim5_counterexample :
    configODK [odkRowBadTime] =
      .error (.valueError "time data 2023-99-99_00:00:00 does not match format %Y-%m-%d_%H:%M:%S") ∧
    isODKConfigurationError (configODK [odkRowBadTime]) = false :=
  ⟨by decide, by decide⟩

/-- C5 (amended).  A lastRun string that does not parse under
%Y-%m-%d_%H:%M:%S is a hard failure of configODK — an uncaught ValueError,
with no default date substituted — not an ODKConfigurationError. -/
theorem claim5_malformed_timestamp_value_error (row : ODKRow) (url lr : String)
    (hurl : row.odkURL = some url) (hu : urlOk url = true)
    (hr : lrrOk row.odkLastRunResult = true)
    (hlr : row.odkLastRun = some lr) (hbad : parseDateTime lr = none) :
    configODK [row] =
      .error (.valueError ("time data " ++ lr ++ " does not match format %Y-%m-%d_%H:%M:%S")) ∧
    isODKConfigurationError (configODK [row]) = false := by
  have h := configODK_valueError hurl hu hr hlr hbad
  refine ⟨h, ?_⟩
  rw [h]
  rfl

/-- Witness for C5 at the concrete malformed row. -/
theorem claim5_witness :
    urlOk "https://odk.example" = true ∧ lrrOk (some "success") = true ∧
    parseDateTime "2023-99-99_00:00:00" = none ∧
    configODK [odkRowBadTime] =
      .error (.valueError "time data 2023-99-99_00:00:00 does not match format %Y-%m-%d_%H:%M:%S") := by
  refine ⟨by decide, by decide, by decide, ?_⟩
  have h := (claim5_malformed_timestamp_value_error odkRowBadTime "https://odk.example"
    "2023-99-99_00:00:00" rfl (by decide) (by decide) rfl (by decide)).1
  exact h.trans (by decide)

/-- C6.  For every stored lastRun string that parses under the fixed format,
configODK returns odkLastRunDate formatted %Y/%m/%d from the timestamp's
calendar date and odkLastRunDatePrev exactly one calendar day earlier (the
previous date is valid and its day ordinal is one less). -/
theorem claim6_lastrun_dates (row : ODKRow) (url lr : String) (dt : PyDateTime)
    (hurl : row.odkURL = some url) (hu : urlOk url = true)
    (hr : lrrOk row.odkLastRunResult = true)
    (hlr : row.odkLastRun = some lr) (hdt : parseDateTime lr = some dt) :
    configODK [row] = .ok ⟨row.odkID, row.odkURL, row.odkUser, row.odkPassword, row.odkFormID,
      row.odkLastRun, row.odkLastRunResult, formatDateSlash (dateOf dt),
      formatDateSlash (prevDate (dateOf dt))⟩ ∧
    ValidDate (prevDate (dateOf dt)) ∧
    dayOrdinal (prevDate (dateOf dt)) + 1 = dayOrdinal (dateOf dt) := by
  obtain ⟨hy, hvd⟩ := parseDateTime_bounds hdt
  have hy2 : 2 ≤ (dateOf dt).year := by
    have : (dateOf dt).year = dt.year := rfl
    omega
  obtain ⟨hpv, hord⟩ := prevDate_valid_ordinal hvd hy2
  exact ⟨configODK_ok hurl hu hr hlr hdt, hpv, hord⟩

/-- Witness for C6: the spec's boundary scenario
lastRun = 2023-05-10_23:59:00 yields 2023/05/10 and 2023/05/09. -/
theorem claim6_witness :
    urlOk "https://odk.example" = true ∧ lrrOk (some "success") = true ∧
    parseDateTime "2023-05-10_23:59:00" = some ⟨2023, 5, 10, 23, 59, 0⟩ ∧
    configODK [odkRowOk] = .ok ⟨some "odkid", some "https://odk.example", some "user",
      some "pw", some "form", some "2023-05-10_23:59:00", some "success",
      "2023/05/10", "2023/05/09"⟩ := by
  refine ⟨by decide, by decide, by decide, ?_⟩
  have h := (claim6_lastrun_dates odkRowOk "https://odk.example" "2023-05-10_23:59:00"
    ⟨2023, 5, 10, 23, 59, 0⟩ rfl (by decide) (by decide) rfl (by decide)).1
  exact h.trans (by decide)

/-- C7 counterexample.  The claim states both nullable probability fields use
the inclusive interval [0, 1].  The value 1 parses to the number one, which
lies in the inclusive interval, yet the validator rejects it as indiv_CI:
the source comparison there is strict (`0 < floatIndivCI < 1`). -/
theorem claim7_counterexample :
    pyFloatOpt (some "1") = some ⟨false, 1, 0⟩ ∧
    0 ≤ DecNum.toRat ⟨false, 1, 0⟩ ∧ DecNum.toRat ⟨false, 1, 0⟩ ≤ 1 ∧
    configInSilicoVA wdDirs "/wd" [insilicoRowOk]
        [{ advInsilicoRowOk with indiv_CI := some "1" }] =
      .error (.openVAConfigurationError "Problem in database: InSilicoVA_Conf.indiv_CI") := by
  refine ⟨by decide, ?_, ?_, by decide⟩
  · rw [DecNum.toRat_false]
    norm_num
  · rw [DecNum.toRat_false]
    norm_num

/-- C7 (amended).  For the nullable probability-like fields of the advanced
InSilicoVA configuration the sentinel string NULL is accepted as unset; a
non-NULL CondProbNum is accepted exactly when it parses as a number in the
inclusive interval [0, 1], while a non-NULL indiv_CI is accepted exactly
when it parses as a number in the exclusive interval (0, 1); any other
value (such as CondProbNum = 1.5) raises OpenVAConfigurationError. -/
theorem claim7_prob_fields_amended :
    (∀ v : Option String, condProbNumOk v = true ↔
      (v = some "NULL" ∨ ∃ x, pyFloatOpt v = some x ∧ 0 ≤ x.toRat ∧ x.toRat ≤ 1)) ∧
    (∀ v : Option String, indivCIOk v = true ↔
      (v = some "NULL" ∨ ∃ x, pyFloatOpt v = some x ∧ 0 < x.toRat ∧ x.toRat < 1)) ∧
    (∀ v : Option String,
      (∃ s, configInSilicoVA wdDirs "/wd" [insilicoRowOk]
        [{ advInsilicoRowOk with CondProbNum := v }] = .ok s) ↔ condProbNumOk v = true) ∧
    (∀ v : Option String,
      (∃ s, configInSilicoVA wdDirs "/wd" [insilicoRowOk]
        [{ advInsilicoRowOk with indiv_CI := v }] = .ok s) ↔ indivCIOk v = true) ∧
    configInSilicoVA wdDirs "/wd" [insilicoRowOk]
        [{ advInsilicoRowOk with CondProbNum := some "1.5" }] =
      .error (.openVAConfigurationError "Problem in database: InSilicoVA_Conf.CondProbNum") := by
  refine ⟨?_, ?_, ?_, ?_, by decide⟩
  · intro v
    simp only [condProbNumOk, Bool.or_eq_true, beq_iff_eq]
    constructor
    · rintro (h | h)
      · exact Or.inl h
      · right
        unfold prob01 at h
        cases hx : pyFloatOpt v with
        | none => rw [hx] at h; cases h
        | some x =>
          rw [hx] at h
          simp only [Bool.and_eq_true] at h
          exact ⟨x, rfl, (DecNum.nonneg_iff x).1 h.1, (DecNum.leOne_iff x).1 h.2⟩
    · rintro (h | ⟨x, hx, h0, h1⟩)
      · exact Or.inl h
      · right
        unfold prob01
        rw [hx]
        simp only [Bool.and_eq_true]
        exact ⟨(DecNum.nonneg_iff x).2 h0, (DecNum.leOne_iff x).2 h1⟩
  · intro v
    simp only [indivCIOk, Bool.or_eq_true, beq_iff_eq]
    constructor
    · rintro (h | h)
      · exact Or.inl h
      · right
        unfold prob01strict at h
        cases hx : pyFloatOpt v with
        | none => rw [hx] at h; cases h
        | some x =>
          rw [hx] at h
          simp only [Bool.and_eq_true] at h
          exact ⟨x, rfl, (DecNum.pos_iff x).1 h.1, (DecNum.ltOne_iff x).1 h.2⟩
    · rintro (h | ⟨x, hx, h0, h1⟩)
      · exact Or.inl h
      · right
        unfold prob01strict
        rw [hx]
        simp only [Bool.and_eq_true]
        exact ⟨(DecNum.pos_iff x).2 h0, (DecNum.ltOne_iff x).2 h1⟩
  · intro v
    simp only [insilico_condProbNum_eval v]
    cases hc : condProbNumOk v <;> simp [hc]
  · intro v
    simp only [insilico_indivCI_eval v]
    cases hc : indivCIOk v <;> simp [hc]

/-- Witness for C7: the sentinel NULL is accepted for CondProbNum. -/
theorem claim7_witness :
    condProbNumOk (some "NULL") = true ∧ indivCIOk (some "NULL") = true :=
  ⟨(claim7_prob_fields_amended.1 (some "NULL")).2 (Or.inl rfl),
   (claim7_prob_fields_amended.2.1 (some "NULL")).2 (Or.inl rfl)⟩

/-- C8 counterexample.  The claim states every boolean-as-string field of
every family validator accepts exactly TRUE/FALSE.  The SmartVA validator
rejects the literal TRUE and accepts the Python-style literal True for its
hiv field. -/
theorem claim8_counterexample :
    configSmartVA [{ smartvaRowOk with hiv := some "TRUE" }] countryListEx =
      .error (.openVAConfigurationError "Problem in database: SmartVA_Conf.hiv") ∧
    configSmartVA [{ smartvaRowOk with hiv := some "True" }] countryListEx =
      .ok ⟨some "USA", some "True", some "False", some "True", some "False",
           some "True", some "english"⟩ :=
  ⟨by decide, by decide⟩

/-- C8 (amended).  Boolean-as-string fields of the InterVA and InSilicoVA
validators accept exactly the literals TRUE and FALSE, while the boolean
fields of the SmartVA validator accept exactly the literals True and False;
anything else raises OpenVAConfigurationError. -/
theorem claim8_boolean_fields_amended :
    (∀ v : Option String, isTF v = true ↔ (v = some "TRUE" ∨ v = some "FALSE")) ∧
    (∀ v : Option String, isTrueFalse v = true ↔ (v = some "True" ∨ v = some "False")) ∧
    (∀ v : Option String,
      (∃ s, configInterVA wdDirs "/wd" [intervaRowOk]
        [{ advIntervaRowOk with append := v }] = .ok s) ↔ isTF v = true) ∧
    (∀ v : Option String,
      (∃ s, configInSilicoVA wdDirs "/wd" [insilicoRowOk]
        [{ advInsilicoRowOk with isNumeric := v }] = .ok s) ↔ isTF v = true) ∧
    (∀ v : Option String,
      (∃ s, configSmartVA [{ smartvaRowOk with hiv := v }] countryListEx = .ok s)
        ↔ isTrueFalse v = true) := by
  refine ⟨?_, ?_, ?_, ?_, ?_⟩
  · intro v
    simp [isTF, beq_iff_eq]
  · intro v
    simp [isTrueFalse, beq_iff_eq]
  · intro v
    simp only [interVA_append_eval v]
    cases hc : isTF v <;> simp [hc]
  · intro v
    simp only [insilico_isNumeric_eval v]
    cases hc : isTF v <;> simp [hc]
  · intro v
    simp only [smartVA_hiv_eval v]
    cases hc : isTrueFalse v <;> simp [hc]

/-- Witness for C8: the two boolean spellings at concrete values. -/
theorem claim8_witness :
    isTF (some "TRUE") = true ∧ isTrueFalse (some "True") = true :=
  ⟨(claim8_boolean_fields_amended.1 (some "TRUE")).2 (Or.inl rfl),
   (claim8_boolean_fields_amended.2.1 (some "True")).2 (Or.inl rfl)⟩

/-- C9.  connectDB fails distinctly on its two failure modes: a missing store
file raises DatabaseConnectionError without attempting to open the store; an
existing file with a wrong key opens the store, runs the probe, and raises a
DatabaseConnectionError carrying the password-error detail, distinct from
the missing-file error; a correct path and key return a connection. -/
theorem claim9_connect_failure_modes (k : Bool) (d : String) :
    connectDB false k d = ⟨false, .error (.databaseConnectionError "")⟩ ∧
    connectDB true false d =
      ⟨true, .error (.databaseConnectionError ("Database password error," ++ d))⟩ ∧
    connectDB true true d = ⟨true, .ok ()⟩ ∧
    PyError.databaseConnectionError ("Database password error," ++ d) ≠
      PyError.databaseConnectionError "" := by
  refine ⟨rfl, rfl, rfl, ?_⟩
  intro h
  have h2 : ("Database password error," ++ d) = "" := by
    injection h
  have hlen := congrArg String.length h2
  rw [String.length_append] at hlen
  have h24 : ("Database password error," : String).length = 24 := rfl
  have h0 : ("" : String).length = 0 := rfl
  rw [h24, h0] at hlen
  omega

/-- Witness for C9 at a concrete detail string. -/
theorem claim9_witness :
    connectDB false true "no such table" = ⟨false, .error (.databaseConnectionError "")⟩ ∧
    connectDB true false "file is not a database" =
      ⟨true, .error (.databaseConnectionError
        ("Database password error," ++ "file is not a database"))⟩ ∧
    connectDB true true "" = ⟨true, .ok ()⟩ :=
  ⟨(claim9_connect_failure_modes true "no such table").1,
   (claim9_connect_failure_modes false "file is not a database").2.1,
   (claim9_connect_failure_modes true "").2.2.1⟩

/-- C10.  configODK performs no validation on odkID, odkUser, odkPassword and
odkFormID: whenever URL prefix, lastRunResult and lastRun are valid, those
four cells are returned exactly as stored — empty strings and NULLs
included — whereas configDHIS rejects an empty or NULL user, password or
orgUnit, naming the field. -/
theorem claim10_odk_passthrough_dhis_rejects :
    (∀ (oid ouser opw ofd : Option String) (url lr : String) (lrr : Option String)
        (dt : PyDateTime),
      urlOk url = true → lrrOk lrr = true → parseDateTime lr = some dt →
      configODK [⟨oid, some url, ouser, opw, ofd, some lr, lrr⟩] =
        .ok ⟨oid, some url, ouser, opw, ofd, some lr, lrr,
             formatDateSlash (dateOf dt), formatDateSlash (prevDate (dateOf dt))⟩) ∧
    (∀ u : Option String, (u = some "" ∨ u = none) →
      configDHIS [⟨some "https://dhis.example", u, some "pw", some "ou"⟩] =
        .error (.dhisConfigurationError "Problem in database: DHIS_Conf.dhisUser (is empty)")) ∧
    (∀ p : Option String, (p = some "" ∨ p = none) →
      configDHIS [⟨some "https://dhis.example", some "user", p, some "ou"⟩] =
        .error (.dhisConfigurationError "Problem in database: DHIS_Conf.dhisPassword (is empty)")) ∧
    (∀ o : Option String, (o = some "" ∨ o = none) →
      configDHIS [⟨some "https://dhis.example", some "user", some "pw", o⟩] =
        .error (.dhisConfigurationError "Problem in database: DHIS_Conf.dhisOrgUnit (is empty)")) := by
  refine ⟨?_, ?_, ?_, ?_⟩
  · intro oid ouser opw ofd url lr lrr dt hu hr hdt
    exact configODK_ok rfl hu hr rfl hdt
  · rintro u (rfl | rfl) <;> decide
  · rintro p (rfl | rfl) <;> decide
  · rintro o (rfl | rfl) <;> decide

/-- Witness for C10: a row with NULL odkID and odkPassword and empty odkUser
and odkFormID passes through unchanged; configDHIS rejects an empty user. -/
theorem claim10_witness :
    urlOk "https://odk.example" = true ∧ lrrOk (some "fail") = true ∧
    parseDateTime "2023-05-10_23:59:00" = some ⟨2023, 5, 10, 23, 59, 0⟩ ∧
    configODK [⟨none, some "https://odk.example", some "", none, some "",
        some "2023-05-10_23:59:00", some "fail"⟩] =
      .ok ⟨none, some "https://odk.example", some "", none, some "",
           some "2023-05-10_23:59:00", some "fail", "2023/05/10", "2023/05/09"⟩ ∧
    configDHIS [⟨some "https://dhis.example", some "", some "pw", some "ou"⟩] =
      .error (.dhisConfigurationError "Problem in database: DHIS_Conf.dhisUser (is empty)") := by
  refine ⟨by decide, by decide, by decide, ?_, ?_⟩
  · have h := claim10_odk_passthrough_dhis_rejects.1 none (some "") none (some "")
      "https://odk.example" "2023-05-10_23:59:00" (some "fail") ⟨2023, 5, 10, 23, 59, 0⟩
      (by decide) (by decide) (by decide)
    exact h.trans (by decide)
  · exact claim10_odk_passthrough_dhis_rejects.2.1 (some "") (Or.inl rfl)
